import Mathlib

/-!
Verification of the Listing Risk Evaluator of `streamlit_app.py`
(AI Authenticity & Similarity Guardian).

Strings are modelled as `List Char`.  Python's `json.loads` is an external
standard-library collaborator; it is modelled as an abstract parameter
`parseJson : Str → Option JObj` (returning `none` exactly when parsing fails
with `json.JSONDecodeError`).  The Gemini network call, Streamlit rendering
and SMTP transmission are external collaborators excluded by the spec; only
the data flowing through them is modelled.
-/

set_option autoImplicit false
set_option maxRecDepth 10000

abbrev Str := List Char

/-- Backtick character (code point 96). -/
def bq : Char := Char.ofNat 96

/-- Opening curly brace character (code point 123). -/
def lbrace : Char := Char.ofNat 123

/-- Closing curly brace character (code point 125). -/
def rbrace : Char := Char.ofNat 125

/-- Single-quote character (code point 39), used by the Python `repr` of dicts. -/
def squo : Char := Char.ofNat 39

/-- Whitespace test matching Python's `str.strip` / regex `\s` on the ASCII
range (space, tab, newline, carriage return, vertical tab, form feed). -/
def isWs (c : Char) : Bool :=
  c == ' ' || c == '\t' || c == '\n' || c == '\r' || c == Char.ofNat 11 || c == Char.ofNat 12

/-- Python `str.strip()`: drop leading and trailing whitespace. -/
def strip (s : Str) : Str :=
  ((s.dropWhile isWs).reverse.dropWhile isWs).reverse

/-- Does `pat` occur at the head of `s`? -/
def startsWith : Str → Str → Bool
  | [], _ => true
  | _ :: _, [] => false
  | p :: ps, c :: cs => p == c && startsWith ps cs

/-- Index of the first occurrence of `pat` as a contiguous substring of `s`
(Python `str.find` / leftmost regex match position). -/
def findSub (pat : Str) : Str → Option Nat
  | [] => if pat.isEmpty then some 0 else none
  | c :: cs => if startsWith pat (c :: cs) then some 0 else (findSub pat cs).map Nat.succ

/-- Does `needle` occur as a contiguous substring of `hay`? -/
def containsStr (needle hay : Str) : Bool :=
  (findSub needle hay).isSome

/-- Index of the first character satisfying `p`. -/
def firstIdxP (p : Char → Bool) : Str → Option Nat
  | [] => none
  | c :: cs => if p c then some 0 else (firstIdxP p cs).map Nat.succ

/-- Index of the last character satisfying `p`. -/
def lastIdxP (p : Char → Bool) (s : Str) : Option Nat :=
  match firstIdxP p s.reverse with
  | none => none
  | some k => some (s.length - 1 - k)

/-- The triple-backtick fence marker of markdown code blocks. -/
def fence : Str := [bq, bq, bq]

/-- The optional `json` tag that may follow the opening fence. -/
def jsonTag : Str := ['j', 's', 'o', 'n']

/-- Source, `clean_json_response`, first branch:
`re.search(r'(three backticks)(?:json)?\s*([\s\S]*?)\s*(three backticks)', response_text)`,
returning `group(1)` when it matches.

Faithfulness of this regex translation: `re.search` matches at the leftmost
possible start, which must be an occurrence of the fence; the greedy
`(?:json)?` consumes a literal `json` tag when present (the tag contains no
backtick, so consuming it never removes a closing fence); the lazy group ends
at the first fence occurrence after the prefix; and if no fence occurs after
the first opening fence then no later opening can complete a match either
(any closing fence for a later opening would also lie after the first one),
so no positional backtracking is needed.  `group(1)` differs from the text
between prefix and closing fence only by surrounding whitespace, which the
caller strips away. -/
def extractFenced (s : Str) : Option Str :=
  match findSub fence s with
  | none => none
  | some i =>
    let afterOpen := s.drop (i + 3)
    let afterTag := if startsWith jsonTag afterOpen then afterOpen.drop 4 else afterOpen
    match findSub fence afterTag with
    | none => none
    | some j => some (afterTag.take j)

/-- Source, `clean_json_response`, second branch:
`re.search(r'\{[\s\S]*\}', response_text.strip())`, returning `group(0)`:
the inclusive substring from the first opening brace to the last closing
brace, provided the first opening brace precedes the last closing brace. -/
def braceSpan (s : Str) : Option Str :=
  match firstIdxP (· == lbrace) s, lastIdxP (· == rbrace) s with
  | some i, some j => if i < j then some ((s.drop i).take (j - i + 1)) else none
  | _, _ => none

/-- Source, `clean_json_response` (lines 20-34): extract a candidate JSON
string from the raw model text.  Fenced block first, then first-brace to
last-brace span of the stripped text, then the stripped text itself. -/
def clean_json_response (s : Str) : Str :=
  match extractFenced s with
  | some inner => strip inner
  | none =>
    match braceSpan (strip s) with
    | some b => strip b
    | none => strip s

/-!
### JSON data model

A small fragment of JSON values sufficient for the fields the app reads:
strings, integers, booleans and null.  A parsed JSON object is an
association list of key/value pairs (Python dict with unique keys; lookup
returns the first binding).
-/

inductive JVal where
  | jstr (s : Str)
  | jint (n : Int)
  | jbool (b : Bool)
  | jnull
  deriving DecidableEq

abbrev JObj := List (Str × JVal)

/-- Python `dict[key]` access (as an `Option`; `none` models `KeyError`). -/
def lookupJ : JObj → Str → Option JVal
  | [], _ => none
  | (k, v) :: rest, key => if k = key then some v else lookupJ rest key

/-- `analysis_data.get(key, default)` style presence test. -/
def hasKey (o : JObj) (k : Str) : Bool :=
  (lookupJ o k).isSome

def keyScore : Str := ("Similarity_Score_Percent").data

def keyRisk : Str := ("Risk_Level").data

def keyReasoning : Str := ("Reasoning").data

def keyMatch : Str := ("Matching_Product_ID").data

/-- Source, line 162: `required_keys = ["Similarity_Score_Percent", "Risk_Level", "Reasoning"]`. -/
def required_keys : List Str := [keyScore, keyRisk, keyReasoning]

/-- Python `str()` of a JSON value as it appears interpolated in an f-string. -/
def pyStr : JVal → Str
  | JVal.jstr s => s
  | JVal.jint n => (toString n).data
  | JVal.jbool true => ("True").data
  | JVal.jbool false => ("False").data
  | JVal.jnull => ("None").data

/-- Python `repr` of a string (single-quoted; the concrete values used here
contain no quote or escape-needing character). -/
def pyReprStr (s : Str) : Str :=
  squo :: (s ++ [squo])

/-- Python `repr` of a JSON value as it appears when a dict is interpolated. -/
def reprJVal : JVal → Str
  | JVal.jstr s => pyReprStr s
  | JVal.jint n => (toString n).data
  | JVal.jbool true => ("True").data
  | JVal.jbool false => ("False").data
  | JVal.jnull => ("None").data

/-- Python `repr` of a dict: `{'k': v, ...}`. -/
def reprObj (o : JObj) : Str :=
  lbrace :: (List.intercalate ((", ").data)
    (o.map fun kv => pyReprStr kv.1 ++ ((": ").data ++ reprJVal kv.2)) ++ [rbrace])

/-!
### ASCII case mapping (Python `str.lower` / `str.upper` on the ASCII range)
-/

def asciiLower (c : Char) : Char :=
  if 'A' ≤ c ∧ c ≤ 'Z' then Char.ofNat (c.toNat + 32) else c

def asciiUpper (c : Char) : Char :=
  if 'a' ≤ c ∧ c ≤ 'z' then Char.ofNat (c.toNat - 32) else c

def lowerStr (s : Str) : Str := s.map asciiLower

def upperStr (s : Str) : Str := s.map asciiUpper

/-- Python `int(s)` on an already-stripped string: an optional sign followed
by at least one ASCII digit; `none` models `ValueError`.  (Python also allows
underscore digit separators and non-ASCII digits; none of the behaviour
established below depends on those extra forms.) -/
def pyInt (s : Str) : Option Int :=
  match s with
  | [] => none
  | c :: rest =>
    if c = '+' then
      if rest ≠ [] ∧ rest.all Char.isDigit then
        some (Int.ofNat (rest.foldl (fun a d => a * 10 + (d.toNat - 48)) 0))
      else none
    else if c = '-' then
      if rest ≠ [] ∧ rest.all Char.isDigit then
        some (-Int.ofNat (rest.foldl (fun a d => a * 10 + (d.toNat - 48)) 0))
      else none
    else if (c :: rest).all Char.isDigit then
      some (Int.ofNat ((c :: rest).foldl (fun a d => a * 10 + (d.toNat - 48)) 0))
    else none

/-!
### Result validator (source, `run_similarity_analysis`, lines 155-175)
-/

/-- The two failure modes of the response pipeline.
`jsonDecode` carries the raw response text (the `except json.JSONDecodeError`
branch displays it); `dataValidation` carries the parsed object (the raised
`ValueError` message interpolates the whole `analysis_result` dict). -/
inductive AnalysisError where
  | jsonDecode (rawText : Str)
  | dataValidation (parsedObj : JObj)
  deriving DecidableEq

/-- The `st.error` text of the `json.JSONDecodeError` branch (line 169); its
dynamic payload is the raw model response text. -/
def json_fail_msg (raw : Str) : Str :=
  ("JSON Parsing Failed. The model response could not be converted to JSON. Raw output: ").data ++ raw

/-- The message of the `ValueError` raised on line 164:
`f"Missing required fields in response: {analysis_result}"`. -/
def validation_msg (o : JObj) : Str :=
  ("Missing required fields in response: ").data ++ reprObj o

/-- Source, `run_similarity_analysis`, lines 155-175, after the model call
returned `raw`: clean the text, parse it (`parseJson` abstracts
`json.loads`), and check that the three required keys are present.  Returns
the parsed object or the error that the code surfaces. -/
def run_similarity_analysis (parseJson : Str → Option JObj) (raw : Str) :
    Except AnalysisError JObj :=
  match parseJson (clean_json_response raw) with
  | none => Except.error (AnalysisError.jsonDecode raw)
  | some obj =>
    if required_keys.all (fun k => hasKey obj k) then Except.ok obj
    else Except.error (AnalysisError.dataValidation obj)

/-!
### Score coercion and classification (button handler, lines 227-244)
-/

/-- Source, lines 228-232:
`score = int(analysis_data['Similarity_Score_Percent'].strip())` inside
`try ... except ValueError: score = 0` (with an error banner flagging the
degraded score).  The `.strip()` attribute access only exists on strings:
a non-string value raises an uncaught `AttributeError`, modelled as `none`.
On a string, a failed `int()` raises `ValueError`, which is caught and
yields score 0 flagged as degraded. -/
def coerce_score : JVal → Option (Int × Bool)
  | JVal.jstr s =>
    match pyInt (strip s) with
    | some n => some (n, false)
    | none => some (0, true)
  | _ => none

inductive Risk where
  | low
  | medium
  | high
  deriving DecidableEq

inductive RecAction where
  | approve
  | review
  | reject
  deriving DecidableEq

def hrLabel : Str := ("high risk").data

def mrLabel : Str := ("medium risk").data

/-- Source, lines 234-244: `risk = analysis_data['Risk_Level'].lower()`, then
HIGH when `risk == "high risk" or score >= 76`, else MEDIUM when
`risk == "medium risk" or score >= 26`, else LOW, with the matching
recommended action. -/
def risk_action (riskLabel : Str) (score : Int) : Risk × RecAction :=
  if lowerStr riskLabel = hrLabel ∨ 76 ≤ score then (Risk.high, RecAction.reject)
  else if lowerStr riskLabel = mrLabel ∨ 26 ≤ score then (Risk.medium, RecAction.review)
  else (Risk.low, RecAction.approve)

/-- Modelled from the spec for comparison (§4.4, step 4): risk tier derived
purely from the coerced score by the fixed bands 0-25 → LOW, 26-75 → MEDIUM,
76-100 → HIGH (the bands extend monotonically outside [0, 100]). -/
def spec_risk (score : Int) : Risk :=
  if score ≤ 25 then Risk.low else if score ≤ 75 then Risk.medium else Risk.high

/-- Modelled from the spec for comparison (§4.4, step 5):
LOW → APPROVE, MEDIUM → REVIEW, HIGH → REJECT. -/
def spec_action (score : Int) : RecAction :=
  match spec_risk score with
  | Risk.low => RecAction.approve
  | Risk.medium => RecAction.review
  | Risk.high => RecAction.reject

/-!
### Outbound email report (source, `send_email_report`, lines 180-212)
-/

/-- Source, lines 187-191: the recommended action printed in the email body:
REJECT when `score >= 75`, else REVIEW when `score >= 26`, else APPROVE. -/
def email_action (score : Int) : RecAction :=
  if 75 ≤ score then RecAction.reject
  else if 26 ≤ score then RecAction.review
  else RecAction.approve

def action_str : RecAction → Str
  | RecAction.approve => ("APPROVE (New Product)").data
  | RecAction.review => ("REVIEW NAME/PRICE (Medium Similarity)").data
  | RecAction.reject => ("REJECT AND INVESTIGATE (High Similarity)").data

/-- `analysis_data.get('Matching_Product_ID', 'N/A')` (lines 205 and 250). -/
def matchingField (obj : JObj) : Str :=
  match lookupJ obj keyMatch with
  | none => ("N/A").data
  | some v => pyStr v

/-- `analysis_data['Risk_Level'].upper()` (line 202); only reached with a
string value (a non-string already crashed the handler at line 235). -/
def riskField (obj : JObj) : Str :=
  match lookupJ obj keyRisk with
  | some (JVal.jstr s) => upperStr s
  | _ => []

/-- `analysis_data['Reasoning']` interpolated in the body (line 206); the key
is present whenever the email is reached (validation passed). -/
def reasoningField (obj : JObj) : Str :=
  match lookupJ obj keyReasoning with
  | some v => pyStr v
  | none => []

def idMarker : Str := ("* **Matching Product ID:** ").data

/-- Source, lines 195-208 (`report_body`): the email body, with the dynamic
fields and their order exactly as in the f-string (the static markdown text
is reproduced up to decorations; the new-listing header naming the Streamlit
input widgets is external UI state outside the evaluator). -/
def report_body (obj : JObj) (score : Int) : Str :=
  (("AAG Similarity Report. Duplication Alert: ").data ++ riskField obj
      ++ ((" . * **Similarity Score:** ").data ++ ((toString score).data ++ ("% . ").data)))
    ++ ((idMarker ++ matchingField obj)
      ++ ((" . * **Reasoning:** ").data ++ (reasoningField obj
        ++ ((" . * **Recommended Action:** ").data ++ action_str (email_action score)))))

/-- Source, `send_email_report` (lines 180-212).  `configured` models the
`SENDER_EMAIL == "your_sender_email@gmail.com"` placeholder check: when the
secrets are unconfigured the function warns and returns `False` without a
body; otherwise it renders the body and returns `True` (the actual SMTP
transmission is never implemented). -/
def send_email_report (configured : Bool) (obj : JObj) (score : Int) :
    Bool × Option Str :=
  if configured then (true, some (report_body obj score)) else (false, none)

/-!
### Button handler (source, lines 217-263)
-/

/-- The analysis fields the handler extracts from the validated object, in
source order: coerced score and degraded flag (lines 228-232, may crash on a
non-string score), the risk label (line 235, `.lower()` crashes on a
non-string), and the reasoning value (line 255).  `none` models an uncaught
exception (`AttributeError` / `KeyError`). -/
def analysis_fields (obj : JObj) : Option (Int × Bool × Str × JVal) :=
  match lookupJ obj keyScore with
  | none => none
  | some sv =>
    match coerce_score sv with
    | none => none
    | some sd =>
      match lookupJ obj keyRisk with
      | some (JVal.jstr rl) =>
        match lookupJ obj keyReasoning with
        | none => none
        | some rv => some (sd.1, sd.2, rl, rv)
      | _ => none

/-- Everything the handler renders for a successful analysis (lines
224-255): score metric, degraded-score banner flag, recomputed risk tier and
recommended action, matching-product metric (with its `N/A` default), the
model's own risk label shown as supplementary info, the reasoning line, and
whether the ≥ 75 email threshold fired (line 258). -/
structure Displayed where
  score : Int
  degraded : Bool
  risk : Risk
  action : RecAction
  matchingIdShown : Str
  riskLevelShown : Str
  reasoningShown : Str
  emailInvoked : Bool
  deriving DecidableEq

def mkDisplayed (obj : JObj) (score : Int) (degraded : Bool) (rl : Str) (rv : JVal) :
    Displayed :=
  { score := score
    degraded := degraded
    risk := (risk_action rl score).1
    action := (risk_action rl score).2
    matchingIdShown := matchingField obj
    riskLevelShown := rl
    reasoningShown := pyStr rv
    emailInvoked := decide (75 ≤ score) }

/-- Outcome of one button press: a rendered report (plus the email result
when the threshold fired), a surfaced analysis failure (line 263), or an
uncaught exception aborting the script run. -/
inductive HandlerOutcome where
  | displayed (d : Displayed) (emailSent : Option Bool)
  | failed (e : AnalysisError)
  | crashed
  deriving DecidableEq

/-- Source, lines 217-263: run the analysis, display the result or the
error; on success coerce the score, classify, render the metrics, and when
`score >= 75` invoke `send_email_report`, whose boolean result never affects
what was rendered. -/
def button_handler (parseJson : Str → Option JObj) (raw : Str) (emailConfigured : Bool) :
    HandlerOutcome :=
  match run_similarity_analysis parseJson raw with
  | Except.error e => HandlerOutcome.failed e
  | Except.ok obj =>
    match analysis_fields obj with
    | none => HandlerOutcome.crashed
    | some (score, degraded, rl, rv) =>
      HandlerOutcome.displayed (mkDisplayed obj score degraded rl rv)
        (if 75 ≤ score then some (send_email_report emailConfigured obj score).1 else none)

/-!
### Helper lemmas about the string primitives
-/

theorem startsWith_self_append (p t : Str) : startsWith p (p ++ t) = true := by
  induction p with
  | nil => rfl
  | cons c cs ih => simp [startsWith, ih]

theorem startsWith_exists {p s : Str} (h : startsWith p s = true) : ∃ t, s = p ++ t := by
  induction p generalizing s with
  | nil => exact ⟨s, rfl⟩
  | cons c cs ih =>
    cases s with
    | nil => simp [startsWith] at h
    | cons d ds =>
      simp only [startsWith, Bool.and_eq_true, beq_iff_eq] at h
      obtain ⟨t, ht⟩ := ih h.2
      exact ⟨t, by simp [h.1, ht]⟩

theorem findSub_isSome_mid (pat pre post : Str) :
    (findSub pat (pre ++ (pat ++ post))).isSome = true := by
  induction pre with
  | nil =>
    rw [List.nil_append]
    cases pat with
    | nil =>
      cases post with
      | nil => rfl
      | cons c cs => rfl
    | cons c cs =>
      rw [List.cons_append, findSub]
      rw [← List.cons_append, startsWith_self_append]
      rfl
  | cons c cs ih =>
    rw [List.cons_append, findSub]
    by_cases hs : startsWith pat (cs ++ (pat ++ post)) = true
    · split <;> simp_all
    · split <;> simp_all

theorem findSub_exists {pat s : Str} {i : Nat} (h : findSub pat s = some i) :
    ∃ a b, s = a ++ (pat ++ b) := by
  induction s generalizing i with
  | nil =>
    cases pat with
    | nil => exact ⟨[], [], rfl⟩
    | cons p ps => simp [findSub, List.isEmpty] at h
  | cons c cs ih =>
    rw [findSub] at h
    by_cases hs : startsWith pat (c :: cs) = true
    · obtain ⟨t, ht⟩ := startsWith_exists hs
      exact ⟨[], t, by simp [ht]⟩
    · rw [if_neg hs] at h
      obtain ⟨j, hj, -⟩ := Option.map_eq_some'.mp h
      obtain ⟨a, b, hab⟩ := ih hj
      exact ⟨c :: a, b, by simp [hab]⟩

theorem findSub_none_of_split {pat u t v : Str} (h : findSub pat (u ++ (t ++ v)) = none) :
    findSub pat t = none := by
  cases hf : findSub pat t with
  | none => rfl
  | some i =>
    obtain ⟨a, b, hab⟩ := findSub_exists hf
    have : (findSub pat (u ++ (t ++ v))).isSome = true := by
      rw [hab]
      have := findSub_isSome_mid pat (u ++ a) (b ++ v)
      simpa [List.append_assoc] using this
    rw [h] at this
    simp at this

theorem strip_decomp (s : Str) :
    s = s.takeWhile isWs ++ (strip s ++ ((s.dropWhile isWs).reverse.takeWhile isWs).reverse) := by
  conv_lhs => rw [← List.takeWhile_append_dropWhile isWs s]
  congr 1
  conv_lhs => rw [← List.reverse_reverse (s.dropWhile isWs),
    ← List.takeWhile_append_dropWhile isWs (s.dropWhile isWs).reverse]
  rw [List.reverse_append]
  rfl

theorem findSub_strip_none {pat s : Str} (h : findSub pat s = none) :
    findSub pat (strip s) = none := by
  apply findSub_none_of_split
  rw [← strip_decomp s]
  exact h

theorem firstIdxP_exists {p : Char → Bool} {s : Str} {i : Nat}
    (h : firstIdxP p s = some i) :
    ∃ u c v, s = u ++ (c :: v) ∧ u.length = i ∧ p c = true := by
  induction s generalizing i with
  | nil => simp [firstIdxP] at h
  | cons c cs ih =>
    rw [firstIdxP] at h
    by_cases hp : p c = true
    · rw [if_pos hp] at h
      cases h
      exact ⟨[], c, cs, rfl, rfl, hp⟩
    · rw [if_neg hp] at h
      obtain ⟨j, hj, hji⟩ := Option.map_eq_some'.mp h
      obtain ⟨u, d, v, huv, hlen, hd⟩ := ih hj
      exact ⟨c :: u, d, v, by simp [huv], by simp [hlen, ← hji], hd⟩

theorem lastIdxP_exists {p : Char → Bool} {s : Str} {j : Nat}
    (h : lastIdxP p s = some j) :
    ∃ u c v, s = u ++ (c :: v) ∧ u.length = j ∧ p c = true := by
  unfold lastIdxP at h
  cases hf : firstIdxP p s.reverse with
  | none => rw [hf] at h; cases h
  | some k =>
    rw [hf] at h
    obtain ⟨a, c, b, hab, hlen, hp⟩ := firstIdxP_exists hf
    have hs : s = b.reverse ++ (c :: a.reverse) := by
      have := congrArg List.reverse hab
      simpa [List.reverse_append] using this
    have hslen : s.length = a.length + 1 + b.length := by
      have := congrArg List.length hab
      simp [List.length_reverse, List.length_append] at this
      omega
    refine ⟨b.reverse, c, a.reverse, hs, ?_, hp⟩
    cases h
    simp [List.length_reverse]
    omega

theorem strip_of_brack_shape (m : Str) :
    strip (lbrace :: (m ++ [rbrace])) = lbrace :: (m ++ [rbrace]) := by
  have h1 : isWs lbrace = false := by decide
  have h2 : isWs rbrace = false := by decide
  unfold strip
  rw [List.dropWhile_cons, h1]
  simp only [if_false, Bool.false_eq_true]
  have hrev : (lbrace :: (m ++ [rbrace])).reverse = rbrace :: (m.reverse ++ [lbrace]) := by
    simp [List.reverse_append]
  rw [hrev, List.dropWhile_cons, h2]
  simp only [if_false, Bool.false_eq_true]
  rw [← hrev, List.reverse_reverse]

theorem braceSpan_slice_shape {t : Str} {i j : Nat}
    (hf : firstIdxP (· == lbrace) t = some i)
    (hl : lastIdxP (· == rbrace) t = some j) (hij : i < j) :
    ∃ m, (t.drop i).take (j - i + 1) = lbrace :: (m ++ [rbrace]) := by
  obtain ⟨u, c, v, huv, hulen, hc⟩ := firstIdxP_exists hf
  obtain ⟨w, e, z, hwz, hwlen, he⟩ := lastIdxP_exists hl
  have hceq : c = lbrace := by simpa using hc
  have heeq : e = rbrace := by simpa using he
  subst hceq heeq
  have hdrop : t.drop i = lbrace :: v := by
    rw [huv, ← hulen, List.drop_left]
  have hv : v = t.drop (i + 1) := by
    rw [huv, ← hulen, show u.length + 1 = u.length + 1 from rfl, List.drop_append]
    rfl
  have hiw : i + 1 ≤ w.length := by omega
  have hdrop2 : t.drop (i + 1) = w.drop (i + 1) ++ (rbrace :: z) := by
    rw [hwz, List.drop_append_of_le_length hiw]
  have hlen2 : (w.drop (i + 1)).length = j - i - 1 := by
    simp [List.length_drop]
    omega
  refine ⟨w.drop (i + 1), ?_⟩
  rw [hdrop, show j - i + 1 = (j - i) + 1 from rfl, List.take_succ_cons]
  have hji : j - i = (w.drop (i + 1)).length + 1 := by omega
  rw [hv, hdrop2, hji, List.take_append]
  simp

theorem clean_fenced {s inner : Str} (h : extractFenced s = some inner) :
    clean_json_response s = strip inner := by
  unfold clean_json_response
  split
  next x heq => rw [h] at heq; injection heq with hx; rw [hx]
  next heq => rw [h] at heq; cases heq

theorem clean_brace {s : Str} {i j : Nat} (hfen : extractFenced s = none)
    (hf : firstIdxP (· == lbrace) (strip s) = some i)
    (hl : lastIdxP (· == rbrace) (strip s) = some j) (hij : i < j) :
    clean_json_response s = ((strip s).drop i).take (j - i + 1) := by
  have hbs : braceSpan (strip s) = some (((strip s).drop i).take (j - i + 1)) := by
    unfold braceSpan
    rw [hf, hl]
    simp [hij]
  unfold clean_json_response
  split
  next x heq => rw [hfen] at heq; cases heq
  next =>
    split
    next b heqb =>
      rw [hbs] at heqb
      injection heqb with hb
      subst hb
      obtain ⟨m, hm⟩ := braceSpan_slice_shape hf hl hij
      rw [hm]
      exact strip_of_brack_shape m
    next heqn => rw [hbs] at heqn; cases heqn

theorem clean_passthrough {s : Str} (hfen : extractFenced s = none)
    (hbr : braceSpan (strip s) = none) :
    clean_json_response s = strip s := by
  unfold clean_json_response
  split
  next x heq => rw [hfen] at heq; cases heq
  next =>
    split
    next b heqb => rw [hbr] at heqb; cases heqb
    next => rfl

/-!
### Helper lemmas about the validator, classifier and handler
-/

theorem coerce_score_jstr (s : Str) :
    coerce_score (JVal.jstr s) =
      (match pyInt (strip s) with
       | some n => some (n, false)
       | none => some (0, true)) := rfl

theorem coerce_score_degraded {s : Str} (h : pyInt (strip s) = none) :
    coerce_score (JVal.jstr s) = some (0, true) := by
  rw [coerce_score_jstr, h]

theorem coerce_score_numeric {s : Str} {n : Int} (h : pyInt (strip s) = some n) :
    coerce_score (JVal.jstr s) = some (n, false) := by
  rw [coerce_score_jstr, h]

theorem coerce_score_str_isSome (s : Str) : (coerce_score (JVal.jstr s)).isSome = true := by
  cases hpy : pyInt (strip s) with
  | none => rw [coerce_score_degraded hpy]; rfl
  | some n => rw [coerce_score_numeric hpy]; rfl

theorem run_similarity_ok {parse : Str → Option JObj} {raw : Str} {obj : JObj}
    (hp : parse (clean_json_response raw) = some obj)
    (hk : required_keys.all (fun k => hasKey obj k) = true) :
    run_similarity_analysis parse raw = Except.ok obj := by
  unfold run_similarity_analysis
  split
  next heq => rw [hp] at heq; cases heq
  next o heq =>
    rw [hp] at heq
    injection heq with ho
    subst ho
    rw [if_pos hk]

theorem run_similarity_missing {parse : Str → Option JObj} {raw : Str} {obj : JObj}
    (hp : parse (clean_json_response raw) = some obj)
    (hk : required_keys.all (fun k => hasKey obj k) = false) :
    run_similarity_analysis parse raw = Except.error (AnalysisError.dataValidation obj) := by
  unfold run_similarity_analysis
  split
  next heq => rw [hp] at heq; cases heq
  next o heq =>
    rw [hp] at heq
    injection heq with ho
    subst ho
    rw [if_neg (by simp [hk])]

theorem run_similarity_parse_fail {parse : Str → Option JObj} {raw : Str}
    (hp : parse (clean_json_response raw) = none) :
    run_similarity_analysis parse raw = Except.error (AnalysisError.jsonDecode raw) := by
  unfold run_similarity_analysis
  split
  next => rfl
  next o heq => rw [hp] at heq; cases heq

theorem analysis_fields_eq {obj : JObj} {s rl : Str} {rv : JVal} {n : Int} {dg : Bool}
    (hs : lookupJ obj keyScore = some (JVal.jstr s))
    (hr : lookupJ obj keyRisk = some (JVal.jstr rl))
    (hre : lookupJ obj keyReasoning = some rv)
    (hc : coerce_score (JVal.jstr s) = some (n, dg)) :
    analysis_fields obj = some (n, dg, rl, rv) := by
  simp only [analysis_fields, hs, hc, hr, hre]

theorem analysis_fields_none_of_nonstr {obj : JObj} {v : JVal}
    (hs : lookupJ obj keyScore = some v)
    (hns : coerce_score v = none) :
    analysis_fields obj = none := by
  simp only [analysis_fields, hs, hns]

theorem button_handler_display {parse : Str → Option JObj} {raw : Str} {obj : JObj}
    {s rl : Str} {rv : JVal} {n : Int} {dg : Bool} (cfg : Bool)
    (hp : parse (clean_json_response raw) = some obj)
    (hs : lookupJ obj keyScore = some (JVal.jstr s))
    (hr : lookupJ obj keyRisk = some (JVal.jstr rl))
    (hre : lookupJ obj keyReasoning = some rv)
    (hc : coerce_score (JVal.jstr s) = some (n, dg)) :
    button_handler parse raw cfg =
      HandlerOutcome.displayed (mkDisplayed obj n dg rl rv)
        (if 75 ≤ n then some (send_email_report cfg obj n).1 else none) := by
  have hk : required_keys.all (fun k => hasKey obj k) = true := by
    simp [required_keys, hasKey, hs, hr, hre]
  have hrun := run_similarity_ok hp hk
  have hfields := analysis_fields_eq hs hr hre hc
  simp only [button_handler, hrun, hfields]

theorem button_handler_displayed_inv {parse : Str → Option JObj} {raw : Str}
    {cfg : Bool} {d : Displayed} {er : Option Bool}
    (h : button_handler parse raw cfg = HandlerOutcome.displayed d er) :
    ∃ obj n dg rl rv,
      run_similarity_analysis parse raw = Except.ok obj ∧
      analysis_fields obj = some (n, dg, rl, rv) ∧
      d = mkDisplayed obj n dg rl rv ∧
      er = (if 75 ≤ n then some (send_email_report cfg obj n).1 else none) := by
  unfold button_handler at h
  split at h
  next e heq => cases h
  next obj heq =>
    split at h
    next => cases h
    next n dg rl rv heq2 =>
      injection h with h1 h2
      exact ⟨obj, n, dg, rl, rv, heq, heq2, h1.symm, h2.symm⟩

theorem spec_risk_low {s : Int} (h : s ≤ 25) : spec_risk s = Risk.low := by
  unfold spec_risk
  rw [if_pos h]

theorem spec_risk_medium {s : Int} (h1 : 26 ≤ s) (h2 : s ≤ 75) : spec_risk s = Risk.medium := by
  unfold spec_risk
  rw [if_neg (by omega), if_pos h2]

theorem spec_risk_high {s : Int} (h : 76 ≤ s) : spec_risk s = Risk.high := by
  unfold spec_risk
  rw [if_neg (by omega), if_neg (by omega)]

theorem email_action_approve_eq {s : Int} (h : s ≤ 25) : email_action s = RecAction.approve := by
  unfold email_action
  rw [if_neg (by omega), if_neg (by omega)]

theorem email_action_review_eq {s : Int} (h1 : 26 ≤ s) (h2 : s ≤ 74) :
    email_action s = RecAction.review := by
  unfold email_action
  rw [if_neg (by omega), if_pos (by omega)]

theorem email_action_reject_eq {s : Int} (h : 75 ≤ s) : email_action s = RecAction.reject := by
  unfold email_action
  rw [if_pos h]

/-- With a risk label whose lowercasing is neither `high risk` nor
`medium risk`, the on-screen classification of lines 234-244 agrees with the
score-derived bands of spec §4.4. -/
theorem risk_action_neutral (rl : Str) (s : Int)
    (h1 : lowerStr rl ≠ hrLabel) (h2 : lowerStr rl ≠ mrLabel) :
    risk_action rl s = (spec_risk s, spec_action s) := by
  by_cases h76 : 76 ≤ s
  · have e1 : risk_action rl s = (Risk.high, RecAction.reject) := by
      unfold risk_action
      rw [if_pos (Or.inr h76)]
    have e2 : spec_risk s = Risk.high := spec_risk_high h76
    rw [e1]
    unfold spec_action
    rw [e2]
  · by_cases h26 : 26 ≤ s
    · have e1 : risk_action rl s = (Risk.medium, RecAction.review) := by
        unfold risk_action
        rw [if_neg (not_or.mpr ⟨h1, h76⟩), if_pos (Or.inr h26)]
      have e2 : spec_risk s = Risk.medium := spec_risk_medium h26 (by omega)
      rw [e1]
      unfold spec_action
      rw [e2]
    · have e1 : risk_action rl s = (Risk.low, RecAction.approve) := by
        unfold risk_action
        rw [if_neg (not_or.mpr ⟨h1, h76⟩), if_neg (not_or.mpr ⟨h2, h26⟩)]
      have e2 : spec_risk s = Risk.low := spec_risk_low (by omega)
      rw [e1]
      unfold spec_action
      rw [e2]

theorem containsStr_mid (pat pre post : Str) : containsStr pat (pre ++ (pat ++ post)) = true := by
  unfold containsStr
  exact findSub_isSome_mid pat pre post

theorem containsStr_suffix (pre t : Str) : containsStr t (pre ++ t) = true := by
  unfold containsStr
  have := findSub_isSome_mid t pre []
  simpa using this

/-- On input whose stripped form is a braced object and which contains no
fence, the normalizer returns the stripped input. -/
theorem clean_of_clean_shape {s mid : Str} (hnf : findSub fence s = none)
    (hs : strip s = lbrace :: (mid ++ [rbrace])) :
    clean_json_response s = strip s := by
  have hef : extractFenced s = none := by
    unfold extractFenced
    rw [hnf]
  have hi : firstIdxP (· == lbrace) (strip s) = some 0 := by
    rw [hs]
    simp [firstIdxP]
  have hj : lastIdxP (· == rbrace) (strip s) = some (mid.length + 1) := by
    rw [hs]
    unfold lastIdxP
    have hrev : (lbrace :: (mid ++ [rbrace])).reverse = rbrace :: (mid.reverse ++ [lbrace]) := by
      simp [List.reverse_append]
    rw [hrev]
    simp [firstIdxP]
  have hc := clean_brace hef hi hj (by omega)
  rw [hc, hs]
  simp

/-!
### Claim theorems
-/

/-- Claim C3: the normalizer applies exactly this priority order: if a
triple-backtick fenced block (optionally tagged json) is present, it returns
the trimmed enclosed text; otherwise, if the stripped text has a first
opening brace strictly before its last closing brace, it returns the
inclusive substring from the first brace to the last brace; otherwise it
returns the trimmed original text unchanged. -/
theorem clean_json_response_priority (s : Str) :
    (∀ inner, extractFenced s = some inner → clean_json_response s = strip inner) ∧
    (extractFenced s = none →
      ∀ i j, firstIdxP (· == lbrace) (strip s) = some i →
        lastIdxP (· == rbrace) (strip s) = some j → i < j →
        clean_json_response s = ((strip s).drop i).take (j - i + 1)) ∧
    (extractFenced s = none → braceSpan (strip s) = none →
      clean_json_response s = strip s) :=
  ⟨fun _ h => clean_fenced h,
   fun hf _ _ h1 h2 h3 => clean_brace hf h1 h2 h3,
   fun hf hb => clean_passthrough hf hb⟩

def sC3 : Str := ['x', ' ', lbrace, 'a', rbrace]

/-- Witness for C3 at the concrete prose-with-braces input `x {a}`: no fence,
first brace at index 2, last brace at index 4, and the normalizer returns the
inclusive brace span. -/
theorem clean_json_response_priority_witness :
    clean_json_response sC3 = ((strip sC3).drop 2).take (4 - 2 + 1) :=
  (clean_json_response_priority sC3).2.1 (by decide) 2 4 (by decide) (by decide) (by decide)

def sC8 : Str := [bq, bq, bq, 'a', lbrace, 'b', rbrace, 'c', bq, bq, bq]

/-- Claim C8 counterexample: the fenced input whose enclosed text is `a{b}c`
normalizes to `a{b}c`, but normalizing that output again yields `{b}`: a
normalizer output is not always a fixed point of the normalizer. -/
theorem normalizer_not_idempotent_cex :
    clean_json_response (clean_json_response sC8) ≠ clean_json_response sC8 := by decide

/-- Claim C8 (amended): the normalizer is idempotent on clean input: for
input with no fence whose stripped text is already a braced JSON object
text, normalizing returns the input unchanged modulo leading and trailing
whitespace, and normalizing that output again yields the same string.  (On
arbitrary inputs a second normalization can differ, see the
counterexample.) -/
theorem normalizer_idempotent_on_clean_json (s mid : Str)
    (hnf : findSub fence s = none)
    (hs : strip s = lbrace :: (mid ++ [rbrace])) :
    clean_json_response s = strip s ∧
    clean_json_response (clean_json_response s) = clean_json_response s := by
  have h1 := clean_of_clean_shape hnf hs
  refine ⟨h1, ?_⟩
  rw [h1]
  have hnf2 : findSub fence (strip s) = none := findSub_strip_none hnf
  have hs2 : strip (strip s) = lbrace :: (mid ++ [rbrace]) := by
    rw [hs, strip_of_brack_shape]
  have h2 := clean_of_clean_shape hnf2 hs2
  rw [h2, hs2, hs]

/-- Witness for C8 at the concrete clean input consisting of a whitespace
padded one-entry object text. -/
theorem normalizer_idempotent_on_clean_json_witness :
    clean_json_response [' ', lbrace, 'a', rbrace, ' '] =
        strip [' ', lbrace, 'a', rbrace, ' '] ∧
    clean_json_response (clean_json_response [' ', lbrace, 'a', rbrace, ' ']) =
        clean_json_response [' ', lbrace, 'a', rbrace, ' '] :=
  normalizer_idempotent_on_clean_json [' ', lbrace, 'a', rbrace, ' '] ['a'] (by decide) (by decide)

/-- Claim C7: when the normalized candidate does not parse as JSON, the
analysis fails with the JSON-decode error, the handler surfaces the failure
instead of any partial result, the displayed diagnostic contains the raw
response text, and plain prose (no fence, no brace span) reaches the parser
as the trimmed original text. -/
theorem malformed_response_aborts (parse : Str → Option JObj) (raw : Str) (cfg : Bool)
    (hfail : parse (clean_json_response raw) = none) :
    run_similarity_analysis parse raw = Except.error (AnalysisError.jsonDecode raw) ∧
    button_handler parse raw cfg = HandlerOutcome.failed (AnalysisError.jsonDecode raw) ∧
    containsStr raw (json_fail_msg raw) = true ∧
    (extractFenced raw = none → braceSpan (strip raw) = none →
      clean_json_response raw = strip raw) := by
  have hrun := run_similarity_parse_fail hfail
  refine ⟨hrun, ?_, ?_, fun a b => clean_passthrough a b⟩
  · simp only [button_handler, hrun]
  · unfold json_fail_msg
    exact containsStr_suffix _ raw

/-- Witness for C7 at the concrete prose response `no json here` with a
parser that rejects every candidate. -/
theorem malformed_response_aborts_witness :
    run_similarity_analysis (fun _ => none) (("no json here").data) =
        Except.error (AnalysisError.jsonDecode (("no json here").data)) ∧
    button_handler (fun _ => none) (("no json here").data) true =
        HandlerOutcome.failed (AnalysisError.jsonDecode (("no json here").data)) ∧
    containsStr (("no json here").data) (json_fail_msg (("no json here").data)) = true ∧
    (extractFenced (("no json here").data) = none →
      braceSpan (strip (("no json here").data)) = none →
      clean_json_response (("no json here").data) = strip (("no json here").data)) :=
  malformed_response_aborts (fun _ => none) (("no json here").data) true rfl

/-- Claim C5: a parsed response whose similarity score is a non-numeric
string does not raise and does not abort: the handler displays a result with
score 0 flagged as degraded, and classification and display proceed. -/
theorem nonnumeric_score_degraded_display (parse : Str → Option JObj) (raw : Str)
    (obj : JObj) (s rl : Str) (rv : JVal) (cfg : Bool)
    (hp : parse (clean_json_response raw) = some obj)
    (hs : lookupJ obj keyScore = some (JVal.jstr s))
    (hnum : pyInt (strip s) = none)
    (hr : lookupJ obj keyRisk = some (JVal.jstr rl))
    (hre : lookupJ obj keyReasoning = some rv) :
    button_handler parse raw cfg =
      HandlerOutcome.displayed (mkDisplayed obj 0 true rl rv) none ∧
    (mkDisplayed obj 0 true rl rv).score = 0 ∧
    (mkDisplayed obj 0 true rl rv).degraded = true := by
  have hc := coerce_score_degraded hnum
  have hbh := button_handler_display cfg hp hs hr hre hc
  refine ⟨?_, rfl, rfl⟩
  rw [hbh, if_neg (by omega)]

def objC5 : JObj := [(keyScore, JVal.jstr (("abc").data)),
  (keyRisk, JVal.jstr (("LOW RISK").data)), (keyReasoning, JVal.jstr (("m").data))]

/-- Witness for C5 at the concrete response whose score field is the string
`abc`. -/
theorem nonnumeric_score_degraded_display_witness :
    button_handler (fun _ => some objC5) [] true =
      HandlerOutcome.displayed
        (mkDisplayed objC5 0 true (("LOW RISK").data) (JVal.jstr (("m").data))) none ∧
    (mkDisplayed objC5 0 true (("LOW RISK").data) (JVal.jstr (("m").data))).score = 0 ∧
    (mkDisplayed objC5 0 true (("LOW RISK").data) (JVal.jstr (("m").data))).degraded = true :=
  nonnumeric_score_degraded_display (fun _ => some objC5) [] objC5 (("abc").data)
    (("LOW RISK").data) (JVal.jstr (("m").data)) true rfl (by decide) (by decide)
    (by decide) (by decide)

def objC6 : JObj := [(keyScore, JVal.jstr (("95").data)),
  (keyRisk, JVal.jstr (("HIGH RISK").data))]

/-- Claim C6 counterexample: for a parsed response missing only the
reasoning field, validation does fail and no result is produced, but the
diagnostic embeds the whole parsed object and does not name the missing
field: the string `Reasoning` does not occur in the message. -/
theorem missing_reasoning_diagnostic_cex :
    run_similarity_analysis (fun _ => some objC6) [] =
        Except.error (AnalysisError.dataValidation objC6) ∧
    containsStr keyReasoning (validation_msg objC6) = false := ⟨rfl, by decide⟩

/-- Claim C6 (amended): for every parsed JSON object lacking a required
field, validation fails with the data-validation error and no analysis
result is produced; the diagnostic embeds the Python repr of the entire
parsed object rather than naming the missing fields. -/
theorem missing_fields_validation_fails (parse : Str → Option JObj) (raw : Str)
    (obj : JObj) (cfg : Bool)
    (hp : parse (clean_json_response raw) = some obj)
    (hmiss : required_keys.all (fun k => hasKey obj k) = false) :
    run_similarity_analysis parse raw = Except.error (AnalysisError.dataValidation obj) ∧
    button_handler parse raw cfg = HandlerOutcome.failed (AnalysisError.dataValidation obj) ∧
    containsStr (reprObj obj) (validation_msg obj) = true := by
  have hrun := run_similarity_missing hp hmiss
  refine ⟨hrun, ?_, ?_⟩
  · simp only [button_handler, hrun]
  · unfold validation_msg
    exact containsStr_suffix _ _

/-- Witness for C6 at the concrete object missing only the reasoning
field. -/
theorem missing_fields_validation_fails_witness :
    run_similarity_analysis (fun _ => some objC6) [] =
        Except.error (AnalysisError.dataValidation objC6) ∧
    button_handler (fun _ => some objC6) [] true =
        HandlerOutcome.failed (AnalysisError.dataValidation objC6) ∧
    containsStr (reprObj objC6) (validation_msg objC6) = true :=
  missing_fields_validation_fails (fun _ => some objC6) [] objC6 true rfl (by decide)

/-- Claim C10: Matching_Product_ID is genuinely optional: an
otherwise-valid parsed response without it still passes validation (the key
is not in the required-field check), the on-screen metric shows the literal
N/A, the outbound report body shows N/A in the matching-product slot, and no
error is raised. -/
theorem matching_id_optional_na (parse : Str → Option JObj) (raw : Str)
    (obj : JObj) (s rl : Str) (rv : JVal) (n : Int) (dg cfg : Bool)
    (hp : parse (clean_json_response raw) = some obj)
    (hs : lookupJ obj keyScore = some (JVal.jstr s))
    (hr : lookupJ obj keyRisk = some (JVal.jstr rl))
    (hre : lookupJ obj keyReasoning = some rv)
    (hm : lookupJ obj keyMatch = none)
    (hc : coerce_score (JVal.jstr s) = some (n, dg)) :
    run_similarity_analysis parse raw = Except.ok obj ∧
    button_handler parse raw cfg =
      HandlerOutcome.displayed (mkDisplayed obj n dg rl rv)
        (if 75 ≤ n then some (send_email_report cfg obj n).1 else none) ∧
    (mkDisplayed obj n dg rl rv).matchingIdShown = ("N/A").data ∧
    containsStr (idMarker ++ ("N/A").data) (report_body obj n) = true := by
  have hk : required_keys.all (fun k => hasKey obj k) = true := by
    simp [required_keys, hasKey, hs, hr, hre]
  have hmf : matchingField obj = ("N/A").data := by
    unfold matchingField
    rw [hm]
  refine ⟨run_similarity_ok hp hk, button_handler_display cfg hp hs hr hre hc, ?_, ?_⟩
  · show matchingField obj = ("N/A").data
    exact hmf
  · unfold report_body
    rw [hmf]
    exact containsStr_mid _ _ _

def objC10 : JObj := [(keyScore, JVal.jstr (("95").data)),
  (keyRisk, JVal.jstr (("HIGH RISK").data)), (keyReasoning, JVal.jstr (("m").data))]

/-- Witness for C10 at a concrete high-scoring response that omits
Matching_Product_ID. -/
theorem matching_id_optional_na_witness :
    run_similarity_analysis (fun _ => some objC10) [] = Except.ok objC10 ∧
    button_handler (fun _ => some objC10) [] true =
      HandlerOutcome.displayed
        (mkDisplayed objC10 95 false (("HIGH RISK").data) (JVal.jstr (("m").data)))
        (if (75 : Int) ≤ 95 then some (send_email_report true objC10 95).1 else none) ∧
    (mkDisplayed objC10 95 false (("HIGH RISK").data)
        (JVal.jstr (("m").data))).matchingIdShown = ("N/A").data ∧
    containsStr (idMarker ++ ("N/A").data) (report_body objC10 95) = true :=
  matching_id_optional_na (fun _ => some objC10) [] objC10 (("95").data)
    (("HIGH RISK").data) (JVal.jstr (("m").data)) 95 false true rfl (by decide)
    (by decide) (by decide) (by decide) (by decide)

/-- Claim C9: the outbound notification is invoked exactly when the coerced
score is at least 75 (the `emailInvoked` flag of the rendered result holds
precisely then), an unconfigured sender returns failure, and the sender
configuration never changes the rendered analysis result: for every
configuration the handler displays the same `Displayed` value, with only the
side email-result slot differing. -/
theorem notification_threshold_and_nonblocking (parse : Str → Option JObj) (raw : Str)
    (obj : JObj) (n : Int) (dg : Bool) (rl : Str) (rv : JVal)
    (hE : run_similarity_analysis parse raw = Except.ok obj)
    (hA : analysis_fields obj = some (n, dg, rl, rv)) :
    ∀ cfg : Bool,
      button_handler parse raw cfg =
        HandlerOutcome.displayed (mkDisplayed obj n dg rl rv)
          (if 75 ≤ n then some (send_email_report cfg obj n).1 else none) ∧
      ((mkDisplayed obj n dg rl rv).emailInvoked = true ↔ 75 ≤ n) ∧
      (send_email_report false obj n).1 = false := by
  intro cfg
  refine ⟨?_, ?_, rfl⟩
  · simp only [button_handler, hE, hA]
  · show decide (75 ≤ n) = true ↔ 75 ≤ n
    exact decide_eq_true_iff

def objC9 : JObj := [(keyScore, JVal.jstr (("95").data)),
  (keyRisk, JVal.jstr (("HIGH").data)), (keyReasoning, JVal.jstr (("m").data))]

/-- Witness for C9 at a concrete high-scoring run with the sender
unconfigured: the threshold fires, the sender reports failure, and the
result is still displayed. -/
theorem notification_threshold_and_nonblocking_witness :
    button_handler (fun _ => some objC9) [] false =
      HandlerOutcome.displayed
        (mkDisplayed objC9 95 false (("HIGH").data) (JVal.jstr (("m").data)))
        (if (75 : Int) ≤ 95 then some (send_email_report false objC9 95).1 else none) ∧
    ((mkDisplayed objC9 95 false (("HIGH").data)
        (JVal.jstr (("m").data))).emailInvoked = true ↔ (75 : Int) ≤ 95) ∧
    (send_email_report false objC9 95).1 = false :=
  notification_threshold_and_nonblocking (fun _ => some objC9) [] objC9 95 false
    (("HIGH").data) (JVal.jstr (("m").data)) rfl (by decide) false

def objC1 : JObj := [(keyScore, JVal.jstr (("0").data)),
  (keyRisk, JVal.jstr (("HIGH RISK").data)), (keyReasoning, JVal.jstr (("m").data))]

def dC1 : Displayed := mkDisplayed objC1 0 false (("HIGH RISK").data) (JVal.jstr (("m").data))

/-- Claim C1 counterexample: a response with coerced score 0 but
self-reported label `HIGH RISK` is displayed as HIGH with action REJECT,
although the score-derived tier of spec §4.4 is LOW with action APPROVE: the
model label does influence which tier and action are chosen. -/
theorem risk_tier_label_override_cex :
    button_handler (fun _ => some objC1) [] true = HandlerOutcome.displayed dC1 none ∧
    dC1.score = 0 ∧ dC1.risk = Risk.high ∧ dC1.action = RecAction.reject ∧
    spec_risk 0 = Risk.low ∧ spec_action 0 = RecAction.approve := by
  refine ⟨rfl, by decide, by decide, by decide, by decide, by decide⟩

/-- Claim C1 (amended): the displayed risk tier and recommended action are
derived purely from the coerced score via the fixed thresholds of §4.4 only
when the model's self-reported label (lowercased) is neither `high risk` nor
`medium risk`; a matching label overrides the score-derived tier (see the
counterexample). -/
theorem risk_tier_score_derived_when_label_neutral
    (parse : Str → Option JObj) (raw : Str) (cfg : Bool) (d : Displayed) (er : Option Bool)
    (h : button_handler parse raw cfg = HandlerOutcome.displayed d er)
    (h1 : lowerStr d.riskLevelShown ≠ hrLabel)
    (h2 : lowerStr d.riskLevelShown ≠ mrLabel) :
    d.risk = spec_risk d.score ∧ d.action = spec_action d.score := by
  obtain ⟨obj, n, dg, rl, rv, hE, hA, hd, her⟩ := button_handler_displayed_inv h
  subst hd
  have h1n : lowerStr rl ≠ hrLabel := h1
  have h2n : lowerStr rl ≠ mrLabel := h2
  have hn := risk_action_neutral rl n h1n h2n
  constructor
  · show (risk_action rl n).1 = spec_risk n
    rw [hn]
  · show (risk_action rl n).2 = spec_action n
    rw [hn]

def objC1n : JObj := [(keyScore, JVal.jstr (("30").data)),
  (keyRisk, JVal.jstr (("UNKNOWN").data)), (keyReasoning, JVal.jstr (("m").data))]

def dC1n : Displayed := mkDisplayed objC1n 30 false (("UNKNOWN").data) (JVal.jstr (("m").data))

/-- Witness for C1 (amended) at a concrete run whose model label `UNKNOWN`
matches neither override label. -/
theorem risk_tier_score_derived_when_label_neutral_witness :
    dC1n.risk = spec_risk dC1n.score ∧ dC1n.action = spec_action dC1n.score :=
  risk_tier_score_derived_when_label_neutral (fun _ => some objC1n) [] true dC1n none
    rfl (by decide) (by decide)

/-- Claim C2 counterexample: at the boundary score 75 (with a neutral model
label) the on-screen classification is MEDIUM with action REVIEW, but the
outbound report's recommended action is REJECT: score 75 does not yield
REVIEW in both places as the claim requires. -/
theorem email_action_boundary_75_cex :
    risk_action (("n/a").data) 75 = (Risk.medium, RecAction.review) ∧
    email_action 75 = RecAction.reject := by decide

/-- Claim C2 (amended): with a neutral model label, the on-screen classifier
follows the bands with the claimed boundaries (0-25 LOW/APPROVE, 26-75
MEDIUM/REVIEW, 76-100 HIGH/REJECT, so 25, 26, 75, 76 land in LOW, MEDIUM,
MEDIUM, HIGH); the outbound report's recommended action instead uses the
threshold 75 for REJECT: it matches the bands on 0-74 and 76-100 but yields
REJECT at score 75. -/
theorem risk_bands_classification (rl : Str) (s : Int)
    (h1 : lowerStr rl ≠ hrLabel) (h2 : lowerStr rl ≠ mrLabel) :
    (0 ≤ s ∧ s ≤ 25 →
      risk_action rl s = (Risk.low, RecAction.approve) ∧
      email_action s = RecAction.approve) ∧
    (26 ≤ s ∧ s ≤ 74 →
      risk_action rl s = (Risk.medium, RecAction.review) ∧
      email_action s = RecAction.review) ∧
    (s = 75 →
      risk_action rl s = (Risk.medium, RecAction.review) ∧
      email_action s = RecAction.reject) ∧
    (76 ≤ s ∧ s ≤ 100 →
      risk_action rl s = (Risk.high, RecAction.reject) ∧
      email_action s = RecAction.reject) := by
  have hn := risk_action_neutral rl s h1 h2
  refine ⟨fun hs => ?_, fun hs => ?_, fun hs => ?_, fun hs => ?_⟩
  · rw [hn]
    have hr : spec_risk s = Risk.low := spec_risk_low hs.2
    constructor
    · rw [show spec_action s = RecAction.approve by unfold spec_action; rw [hr], hr]
    · exact email_action_approve_eq hs.2
  · rw [hn]
    have hr : spec_risk s = Risk.medium := spec_risk_medium hs.1 (by omega)
    constructor
    · rw [show spec_action s = RecAction.review by unfold spec_action; rw [hr], hr]
    · exact email_action_review_eq hs.1 hs.2
  · rw [hn]
    have hr : spec_risk s = Risk.medium := spec_risk_medium (by omega) (by omega)
    constructor
    · rw [show spec_action s = RecAction.review by unfold spec_action; rw [hr], hr]
    · exact email_action_reject_eq (by omega)
  · rw [hn]
    have hr : spec_risk s = Risk.high := spec_risk_high hs.1
    constructor
    · rw [show spec_action s = RecAction.reject by unfold spec_action; rw [hr], hr]
    · exact email_action_reject_eq (by omega)

/-- Witness for C2 (amended) at the neutral label `n/a` and the boundary
score 75. -/
theorem risk_bands_classification_witness :
    ((0 : Int) ≤ 75 ∧ (75 : Int) ≤ 25 →
      risk_action (("n/a").data) 75 = (Risk.low, RecAction.approve) ∧
      email_action 75 = RecAction.approve) ∧
    ((26 : Int) ≤ 75 ∧ (75 : Int) ≤ 74 →
      risk_action (("n/a").data) 75 = (Risk.medium, RecAction.review) ∧
      email_action 75 = RecAction.review) ∧
    ((75 : Int) = 75 →
      risk_action (("n/a").data) 75 = (Risk.medium, RecAction.review) ∧
      email_action 75 = RecAction.reject) ∧
    ((76 : Int) ≤ 75 ∧ (75 : Int) ≤ 100 →
      risk_action (("n/a").data) 75 = (Risk.high, RecAction.reject) ∧
      email_action 75 = RecAction.reject) :=
  risk_bands_classification (("n/a").data) 75 (by decide) (by decide)

def objC4 : JObj := [(keyScore, JVal.jint 95),
  (keyRisk, JVal.jstr (("HIGH RISK").data)), (keyReasoning, JVal.jstr (("m").data))]

/-- Claim C4 counterexample: a `Similarity_Score_Percent` arriving as the
JSON integer 95 makes the score coercion raise an uncaught AttributeError
(`.strip()` on an int; only ValueError is caught), crashing the handler,
while the string form `"95"` coerces and displays: the coercion does not
function without an unhandled exception on integer input. -/
theorem score_coercion_int_cex :
    coerce_score (JVal.jint 95) = none ∧
    coerce_score (JVal.jstr (("95").data)) = some (95, false) ∧
    button_handler (fun _ => some objC4) [] true = HandlerOutcome.crashed := by
  refine ⟨rfl, by decide, rfl⟩

/-- Claim C4 (amended): the score coercion functions without an unhandled
exception only for string-valued scores (numeric strings coerce to their
value, non-numeric ones fall back to 0 flagged as degraded); a JSON-integer
score raises an uncaught AttributeError, crashing the handler for every
validated response carrying one. -/
theorem score_coercion_string_total_int_crash :
    (∀ s : Str, (coerce_score (JVal.jstr s)).isSome = true) ∧
    (∀ n : Int, coerce_score (JVal.jint n) = none) ∧
    (∀ (parse : Str → Option JObj) (raw : Str) (obj : JObj) (n : Int) (cfg : Bool),
      parse (clean_json_response raw) = some obj →
      required_keys.all (fun k => hasKey obj k) = true →
      lookupJ obj keyScore = some (JVal.jint n) →
      button_handler parse raw cfg = HandlerOutcome.crashed) := by
  refine ⟨coerce_score_str_isSome, fun n => rfl, ?_⟩
  intro parse raw obj n cfg hp hk hsc
  have hrun := run_similarity_ok hp hk
  have hfields : analysis_fields obj = none := analysis_fields_none_of_nonstr hsc rfl
  simp only [button_handler, hrun, hfields]

/-- Witness for C4 (amended): the handler crash at the concrete
integer-scored response. -/
theorem score_coercion_string_total_int_crash_witness :
    button_handler (fun _ => some objC4) [] false = HandlerOutcome.crashed :=
  score_coercion_string_total_int_crash.2.2 (fun _ => some objC4) [] objC4 95 false
    rfl (by decide) (by decide)
